import Mathlib

/-!
Shallow embedding of the wgpu-tools repository (src/context.rs, src/error.rs,
src/lib.rs) into Lean 4.

Modelling conventions:
* `u32` values are `Nat` with arithmetic reduced modulo `2 ^ 32` wherever the
  Rust code performs `u32` arithmetic that may wrap (release-mode semantics).
* Opaque handles owned by the wgpu library (instance, adapter, device, queue,
  texture, view, sampler) are modelled as small structures; the library's
  constructors (`create_texture`, `create_view`, `create_sampler`) are
  deterministic functions of their descriptor, since this repository treats
  them as black boxes and only forwards descriptors to them.
* Effects on the device and queue are recorded explicitly: every public
  texture-building method returns its result together with the list of wgpu
  library calls it performed, in order.
* Library operations whose outcome the wrapper merely inspects
  (`request_adapter`, `request_device`, `image::load_from_memory`) are taken
  as function parameters, so theorems quantify over every possible library
  behaviour.
* Rust `f32` values (the components of the color vector in
  `texture_from_color` and the sampler lod clamps) are modelled as exact
  rationals; the literals appearing in the source (0.0, 100.0, 255.0) and the
  concrete component values used in theorems below are exactly representable
  in f32, for which f32 arithmetic is exact.
-/

/-- Modulus of Rust's `u32` type. -/
def U32MOD : Nat := 2 ^ 32

/-- wgpu::TextureFormat. The wrapper never inspects a format, so it is
modelled as the formats mentioned in the source plus an opaque remainder. -/
inductive TextureFormat where
  | Rgba8Unorm
  | Rgba8UnormSrgb
  | Depth32Float
  | Other (code : Nat)
deriving DecidableEq, Repr

/-- wgpu::TextureDimension (only D2 is used by the source). -/
inductive TextureDimension where
  | D1
  | D2
  | D3
deriving DecidableEq, Repr

/-- wgpu::TextureUsages flags used by the source. -/
inductive TextureUsage where
  | RENDER_ATTACHMENT
  | TEXTURE_BINDING
  | COPY_DST
deriving DecidableEq, Repr

/-- wgpu::AddressMode. -/
inductive AddressMode where
  | ClampToEdge
  | Repeat
  | MirrorRepeat
deriving DecidableEq, Repr

/-- wgpu::FilterMode. -/
inductive FilterMode where
  | Nearest
  | Linear
deriving DecidableEq, Repr

/-- wgpu::CompareFunction (only LessEqual is used by the source). -/
inductive CompareFunction where
  | LessEqual
  | Other (code : Nat)
deriving DecidableEq, Repr

/-- wgpu::TextureAspect (only All is used by the source). -/
inductive TextureAspect where
  | All
deriving DecidableEq, Repr

/-- wgpu::Extent3d. -/
structure Extent3d where
  width : Nat
  height : Nat
  depth_or_array_layers : Nat
deriving DecidableEq, Repr

/-- wgpu::Origin3d. -/
structure Origin3d where
  x : Nat
  y : Nat
  z : Nat
deriving DecidableEq, Repr

/-- wgpu::Origin3d::ZERO. -/
def Origin3d.ZERO : Origin3d := ⟨0, 0, 0⟩

/-- wgpu::TextureDescriptor, with the fields the source sets. -/
structure TextureDescriptor where
  label : Option String
  size : Extent3d
  mip_level_count : Nat
  sample_count : Nat
  dimension : TextureDimension
  format : TextureFormat
  view_formats : List TextureFormat
  usage : List TextureUsage
deriving DecidableEq, Repr

/-- wgpu::TextureViewDescriptor; the source only ever uses the default. -/
structure TextureViewDescriptor where
  label : Option String := none
deriving DecidableEq, Repr

/-- wgpu::SamplerDescriptor with wgpu's `Default` values; the source
overrides a subset of fields and fills the rest with `..Default::default()`. -/
structure SamplerDescriptor where
  label : Option String := none
  address_mode_u : AddressMode := .ClampToEdge
  address_mode_v : AddressMode := .ClampToEdge
  address_mode_w : AddressMode := .ClampToEdge
  mag_filter : FilterMode := .Nearest
  min_filter : FilterMode := .Nearest
  mipmap_filter : FilterMode := .Nearest
  lod_min_clamp : ℚ := 0
  lod_max_clamp : ℚ := 32
  compare : Option CompareFunction := none
  anisotropy_clamp : Nat := 1
deriving DecidableEq, Repr

/-- wgpu::ImageDataLayout. -/
structure ImageDataLayout where
  offset : Nat
  bytes_per_row : Option Nat
  rows_per_image : Option Nat
deriving DecidableEq, Repr

/-- Handle returned by wgpu's `Device::create_texture`; deterministic in the
descriptor (the wrapper treats it as opaque). -/
structure TextureHandle where
  descriptor : TextureDescriptor
deriving DecidableEq, Repr

/-- Handle returned by wgpu's `Texture::create_view`. -/
structure TextureView where
  texture : TextureHandle
  descriptor : TextureViewDescriptor
deriving DecidableEq, Repr

/-- Handle returned by wgpu's `Device::create_sampler`. -/
structure Sampler where
  descriptor : SamplerDescriptor
deriving DecidableEq, Repr

/-- wgpu::ImageCopyTexture as built by `texture_with_data`. -/
structure ImageCopyTexture where
  aspect : TextureAspect
  texture : TextureHandle
  mip_level : Nat
  origin : Origin3d
deriving DecidableEq, Repr

/-- Opaque wgpu::RequestDeviceError owned by the GPU library. -/
structure RequestDeviceError where
  code : Nat
deriving DecidableEq, Repr

/-- Opaque image::ImageError owned by the image-decoding library. -/
structure ImageError where
  code : Nat
deriving DecidableEq, Repr

/-- The public Error enum of src/error.rs. -/
inductive Error where
  | RequestingAdapterFailed
  | RequestingDeviceFailed (e : RequestDeviceError)
  | ImageError (e : ImageError)
  | TextureCreationFailed
deriving DecidableEq, Repr

/-- Modelled from the spec: a variant "transparently forwards the underlying
library's error types" when it carries a payload that is an error type of the
GPU library or the image-decoding library (the two variants marked
transparent with a from-conversion in src/error.rs). -/
def Error.forwardsLibraryError : Error → Bool
  | .RequestingDeviceFailed _ => true
  | .ImageError _ => true
  | .RequestingAdapterFailed => false
  | .TextureCreationFailed => false

/-- Opaque wgpu::Instance handle. -/
structure Instance where
  id : Nat
deriving DecidableEq, Repr

/-- Opaque wgpu::Adapter handle. -/
structure Adapter where
  id : Nat
deriving DecidableEq, Repr

/-- Opaque wgpu::Device handle. -/
structure Device where
  id : Nat
deriving DecidableEq, Repr

/-- Opaque wgpu::Queue handle. -/
structure Queue where
  id : Nat
deriving DecidableEq, Repr

/-- Opaque wgpu::RequestAdapterOptions (the wrapper only forwards it). -/
structure RequestAdapterOptions where
  code : Nat
deriving DecidableEq, Repr

/-- Opaque wgpu::DeviceDescriptor (the wrapper only forwards it). -/
structure DeviceDescriptor where
  code : Nat
deriving DecidableEq, Repr

/-- ContextDescriptor from src/context.rs; `trace_path` is a path string. -/
structure ContextDescriptor where
  request_adapter_options : RequestAdapterOptions
  device_descriptor : DeviceDescriptor
  trace_path : Option String
deriving DecidableEq, Repr

/-- The Context struct of src/context.rs. The Rust field `instance` is a
Lean keyword, so it is named `inst` here. -/
structure Context where
  inst : Instance
  adapter : Adapter
  device : Device
  queue : Queue
deriving DecidableEq, Repr

/-- One call into the wgpu library made by a texture-building method,
recorded with the exact arguments passed. -/
inductive LibCall where
  | createTexture (descriptor : TextureDescriptor)
  | writeTexture (target : ImageCopyTexture) (data : List UInt8)
      (layout : ImageDataLayout) (size : Extent3d)
  | createView (texture : TextureHandle) (descriptor : TextureViewDescriptor)
  | createSampler (descriptor : SamplerDescriptor)
deriving DecidableEq, Repr

/-- Modelled from the spec: src/texture.rs is not under src/, but lib.rs
declares `mod texture`, context.rs constructs `Texture` from exactly a
texture, a view and a sampler, and the spec lists texture, view and sampler
among the wrapped opaque handles. -/
structure Texture where
  texture : TextureHandle
  view : TextureView
  sampler : Sampler
deriving DecidableEq, Repr

/-- Modelled from the spec: `Texture::DEPTH_FORMAT` lives in the missing
src/texture.rs; context.rs line 96 declares `Depth32Float` as the sole view
format of the depth texture, fixing its value. -/
def Texture.DEPTH_FORMAT : TextureFormat := .Depth32Float

/-- wgpu's `Device::create_texture`, modelled as deterministic in the
descriptor. -/
def Device.create_texture (descriptor : TextureDescriptor) : TextureHandle :=
  ⟨descriptor⟩

/-- wgpu's `Texture::create_view`, modelled as deterministic. -/
def TextureHandle.create_view (t : TextureHandle)
    (descriptor : TextureViewDescriptor) : TextureView :=
  ⟨t, descriptor⟩

/-- wgpu's `Device::create_sampler`, modelled as deterministic. -/
def Device.create_sampler (descriptor : SamplerDescriptor) : Sampler :=
  ⟨descriptor⟩

/-- Context::new (src/context.rs lines 21-39). The library operations
`request_adapter` and `request_device` are parameters, so the definition
covers every behaviour of the GPU library. -/
def Context.new
    (request_adapter : RequestAdapterOptions → Option Adapter)
    (request_device : Adapter → DeviceDescriptor → Option String →
      Except RequestDeviceError (Device × Queue))
    (inst : Instance) (descriptor : ContextDescriptor) :
    Except Error Context :=
  match request_adapter descriptor.request_adapter_options with
  | none => .error .RequestingAdapterFailed
  | some adapter =>
    match request_device adapter descriptor.device_descriptor
        descriptor.trace_path with
    | .error e => .error (.RequestingDeviceFailed e)
    | .ok (device, queue) => .ok ⟨inst, adapter, device, queue⟩

/-- Context::depth_texture (src/context.rs lines 83-118). It is infallible:
its Rust return type is `Texture`, not `Result`. The second component is the
list of wgpu calls performed. -/
def Context.depth_texture (_self : Context) (width height : Nat)
    (label : String) : Texture × List LibCall :=
  let size : Extent3d := ⟨width, height, 1⟩
  let descriptor : TextureDescriptor :=
    { label := some label
      size := size
      mip_level_count := 1
      sample_count := 1
      dimension := .D2
      format := Texture.DEPTH_FORMAT
      view_formats := [.Depth32Float]
      usage := [.RENDER_ATTACHMENT, .TEXTURE_BINDING] }
  let texture := Device.create_texture descriptor
  let view := texture.create_view {}
  let samplerDescriptor : SamplerDescriptor :=
    { address_mode_u := .ClampToEdge
      address_mode_v := .ClampToEdge
      address_mode_w := .ClampToEdge
      mag_filter := .Linear
      min_filter := .Linear
      mipmap_filter := .Nearest
      compare := some .LessEqual
      lod_min_clamp := 0
      lod_max_clamp := 100 }
  let sampler := Device.create_sampler samplerDescriptor
  (⟨texture, view, sampler⟩,
    [.createTexture descriptor, .createView texture {},
     .createSampler samplerDescriptor])

/-- Context::texture_with_data (src/context.rs lines 120-183). `width` and
`height` are u32 values (Nats below `U32MOD`); the two u32 multiplications of
the source wrap modulo `U32MOD`. Note the source computes `bytes_per_image`
as `bytes_per_row * size.width` — width, not height. -/
def Context.texture_with_data (_self : Context) (data : List UInt8)
    (width height : Nat) (texture_format : TextureFormat)
    (label : Option String) : Except Error Texture × List LibCall :=
  let size : Extent3d := ⟨width, height, 1⟩
  let bytes_per_row := 4 * size.width % U32MOD
  let bytes_per_image := bytes_per_row * size.width % U32MOD
  if bytes_per_row = 0 ∨ data.length < bytes_per_image then
    (.error .TextureCreationFailed, [])
  else
    let descriptor : TextureDescriptor :=
      { label := label
        size := size
        mip_level_count := 1
        sample_count := 1
        dimension := .D2
        format := texture_format
        view_formats := [texture_format]
        usage := [.TEXTURE_BINDING, .COPY_DST] }
    let texture := Device.create_texture descriptor
    let target : ImageCopyTexture :=
      { aspect := .All
        texture := texture
        mip_level := 0
        origin := Origin3d.ZERO }
    let layout : ImageDataLayout :=
      { offset := 0
        bytes_per_row := some bytes_per_row
        rows_per_image := some size.height }
    let view := texture.create_view {}
    let samplerDescriptor : SamplerDescriptor :=
      { address_mode_u := .ClampToEdge
        address_mode_v := .ClampToEdge
        address_mode_w := .ClampToEdge
        mag_filter := .Linear
        min_filter := .Linear
        mipmap_filter := .Linear }
    let sampler := Device.create_sampler samplerDescriptor
    (.ok ⟨texture, view, sampler⟩,
      [.createTexture descriptor,
       .writeTexture target data layout size,
       .createView texture {},
       .createSampler samplerDescriptor])

/-- image::DynamicImage, abstracted to what the wrapper reads from it: its
dimensions and its RGBA8 byte conversion. -/
structure DynamicImage where
  width : Nat
  height : Nat
  rgba8 : List UInt8
deriving DecidableEq, Repr

/-- image::GenericImageView::dimensions. -/
def DynamicImage.dimensions (image : DynamicImage) : Nat × Nat :=
  (image.width, image.height)

/-- image::DynamicImage::to_rgba8, abstracted to the bytes it produces. -/
def DynamicImage.to_rgba8 (image : DynamicImage) : List UInt8 :=
  image.rgba8

/-- Context::texture_from_image (src/context.rs lines 185-194). -/
def Context.texture_from_image (self : Context) (image : DynamicImage)
    (texture_format : TextureFormat) (label : Option String) :
    Except Error Texture × List LibCall :=
  let (width, height) := image.dimensions
  let data := image.to_rgba8
  self.texture_with_data data width height texture_format label

/-- Context::texture_from_image_data (src/context.rs lines 196-204). The
decoder `image::load_from_memory` is owned by the image library and is a
parameter. -/
def Context.texture_from_image_data (self : Context)
    (load_from_memory : List UInt8 → Except ImageError DynamicImage)
    (data : List UInt8) (texture_format : TextureFormat)
    (label : Option String) : Except Error Texture × List LibCall :=
  match load_from_memory data with
  | .error e => (.error (.ImageError e), [])
  | .ok image => self.texture_from_image image texture_format label

/-- nalgebra::SVector of four f32 components; f32 values are modelled as
exact rationals (see the header comment). -/
structure SVector4 where
  x : ℚ
  y : ℚ
  z : ℚ
  w : ℚ
deriving DecidableEq, Repr

/-- Rust's `as u8` cast from f32: truncation toward zero with saturation to
the range 0..=255 (NaN, which maps to 0, has no rational counterpart). -/
def rustCastF32ToU8 (q : ℚ) : UInt8 :=
  if q ≤ 0 then 0
  else if 255 ≤ q then 255
  else UInt8.ofNat q.floor.toNat

/-- The 4-byte data array computed by Context::texture_from_color
(src/context.rs lines 212-217): each component scaled by 255 and cast. -/
def colorBytes (color : SVector4) : List UInt8 :=
  [rustCastF32ToU8 (color.x * 255),
   rustCastF32ToU8 (color.y * 255),
   rustCastF32ToU8 (color.z * 255),
   rustCastF32ToU8 (color.w * 255)]

/-- Context::texture_from_color (src/context.rs lines 206-220). -/
def Context.texture_from_color (self : Context) (color : SVector4)
    (texture_format : TextureFormat) (label : Option String) :
    Except Error Texture × List LibCall :=
  let data := colorBytes color
  self.texture_with_data data 1 1 texture_format label

/-- Size passed to the first createTexture call of a trace, if any. -/
def textureExtentOf : List LibCall → Option Extent3d
  | [] => none
  | .createTexture d :: _ => some d.size
  | _ :: rest => textureExtentOf rest

/-- Data layout of the first writeTexture call of a trace, if any. -/
def writeLayoutOf : List LibCall → Option ImageDataLayout
  | [] => none
  | .writeTexture _ _ layout _ :: _ => some layout
  | _ :: rest => writeLayoutOf rest

/-- Bytes passed to the first writeTexture call of a trace, if any. -/
def writtenBytesOf : List LibCall → Option (List UInt8)
  | [] => none
  | .writeTexture _ data _ _ :: _ => some data
  | _ :: rest => writtenBytesOf rest

/-- A fixed concrete context used by witnesses and counterexamples. -/
def ctx0 : Context := ⟨⟨0⟩, ⟨1⟩, ⟨2⟩, ⟨3⟩⟩

/-- Whether an Except value is the ok case. -/
def exceptIsOk {α β : Type} : Except α β → Bool
  | .ok _ => true
  | .error _ => false

/-- Descriptor passed to the first createTexture call of a trace, if any. -/
def textureDescriptorOf : List LibCall → Option TextureDescriptor
  | [] => none
  | .createTexture d :: _ => some d
  | _ :: rest => textureDescriptorOf rest

/-- The texture descriptor built by `texture_with_data` on its success path. -/
def twdDescriptor (width height : Nat) (texture_format : TextureFormat)
    (label : Option String) : TextureDescriptor :=
  { label := label
    size := ⟨width, height, 1⟩
    mip_level_count := 1
    sample_count := 1
    dimension := .D2
    format := texture_format
    view_formats := [texture_format]
    usage := [.TEXTURE_BINDING, .COPY_DST] }

/-- The sampler descriptor built by `texture_with_data` on its success path. -/
def twdSampler : SamplerDescriptor :=
  { address_mode_u := .ClampToEdge
    address_mode_v := .ClampToEdge
    address_mode_w := .ClampToEdge
    mag_filter := .Linear
    min_filter := .Linear
    mipmap_filter := .Linear }

/-- When the length precondition fails, `texture_with_data` returns the
wrapper-defined error and performs no library call. -/
lemma twd_eq_of_cond (self : Context) (data : List UInt8)
    (width height : Nat) (fmt : TextureFormat) (label : Option String)
    (h : 4 * width % U32MOD = 0 ∨
      data.length < 4 * width % U32MOD * width % U32MOD) :
    self.texture_with_data data width height fmt label =
      (.error .TextureCreationFailed, []) := by
  simp only [Context.texture_with_data]
  rw [if_pos h]

/-- When the length precondition holds, `texture_with_data` creates the
texture, uploads the data, and builds a view and a sampler, in that order. -/
lemma twd_eq_of_not_cond (self : Context) (data : List UInt8)
    (width height : Nat) (fmt : TextureFormat) (label : Option String)
    (h : ¬(4 * width % U32MOD = 0 ∨
      data.length < 4 * width % U32MOD * width % U32MOD)) :
    self.texture_with_data data width height fmt label =
      (.ok ⟨⟨twdDescriptor width height fmt label⟩,
            ⟨⟨twdDescriptor width height fmt label⟩, {}⟩,
            ⟨twdSampler⟩⟩,
       [.createTexture (twdDescriptor width height fmt label),
        .writeTexture
          ⟨.All, ⟨twdDescriptor width height fmt label⟩, 0, Origin3d.ZERO⟩
          data
          ⟨0, some (4 * width % U32MOD), some height⟩
          ⟨width, height, 1⟩,
        .createView ⟨twdDescriptor width height fmt label⟩ {},
        .createSampler twdSampler]) := by
  simp only [Context.texture_with_data]
  rw [if_neg h]
  rfl

/-- The only error `texture_with_data` can return is TextureCreationFailed. -/
lemma twd_error_eq (self : Context) (data : List UInt8)
    (width height : Nat) (fmt : TextureFormat) (label : Option String)
    (e : Error)
    (h : (self.texture_with_data data width height fmt label).fst =
      .error e) :
    e = .TextureCreationFailed := by
  by_cases hc : (4 * width % U32MOD = 0 ∨
      data.length < 4 * width % U32MOD * width % U32MOD)
  · rw [twd_eq_of_cond self data width height fmt label hc] at h
    exact (Except.error.injEq _ _).mp h.symm
  · rw [twd_eq_of_not_cond self data width height fmt label hc] at h
    exact absurd h (by simp)

/-- C1: the claim fails on the code, and the code contradicts its own intent.
For a 1-by-2 texture with 4 bytes of data, the claim (and the upload the
function itself performs, which needs 4 * width * height = 8 bytes) requires
Err(TextureCreationFailed); but the source computes `bytes_per_image` as
`bytes_per_row * size.width` = 4, so it accepts the short data, creates the
texture and writes it. -/
theorem texture_with_data_accepts_short_data_for_1x2 :
    exceptIsOk (ctx0.texture_with_data [0, 0, 0, 0] 1 2 .Rgba8Unorm none).fst
      = true ∧
    (4 : Nat) < 4 * 1 * 2 ∧
    writeLayoutOf (ctx0.texture_with_data [0, 0, 0, 0] 1 2 .Rgba8Unorm
      none).snd = some ⟨0, some 4, some 2⟩ := by
  refine ⟨?_, by norm_num, ?_⟩ <;> decide

/-- C2, counterexample: depth_texture validates nothing. At width 0 and
height 0 it still calls the library's texture constructor (with a 0-by-0
extent) and returns a Texture; its Rust return type is not even a Result, so
it cannot return an error. -/
theorem depth_texture_creates_unconditionally :
    textureExtentOf (ctx0.depth_texture 0 0 "depth").snd = some ⟨0, 0, 1⟩ :=
  rfl

/-- C2, amended: among the public texture-building operations, the fallible
ones validate the byte-length precondition inside texture_with_data and
return Err(TextureCreationFailed) with no library call when it fails, while
depth_texture performs no validation and unconditionally constructs the
texture for any width and height. -/
theorem fallible_builders_validate_depth_texture_does_not :
    (∀ (self : Context) (data : List UInt8) (width height : Nat)
        (fmt : TextureFormat) (label : Option String),
      (4 * width % U32MOD = 0 ∨
        data.length < 4 * width % U32MOD * width % U32MOD) →
      self.texture_with_data data width height fmt label =
        (.error .TextureCreationFailed, [])) ∧
    (∀ (self : Context) (width height : Nat) (label : String),
      textureExtentOf (self.depth_texture width height label).snd =
        some ⟨width, height, 1⟩) :=
  ⟨twd_eq_of_cond, fun _ _ _ _ => rfl⟩

/-- C2, witness for the amended theorem at concrete inputs: empty data on a
1-by-1 texture fails validation with no library call, and depth_texture at
width 7, height 9 creates a 7-by-9 texture with no check. -/
theorem fallible_builders_validate_witness :
    ctx0.texture_with_data [] 1 1 .Rgba8Unorm none =
      (.error .TextureCreationFailed, []) ∧
    textureExtentOf (ctx0.depth_texture 7 9 "depth").snd = some ⟨7, 9, 1⟩ :=
  ⟨fallible_builders_validate_depth_texture_does_not.1 ctx0 [] 1 1
      .Rgba8Unorm none (by decide),
   fallible_builders_validate_depth_texture_does_not.2 ctx0 7 9 "depth"⟩

/-- C3, counterexample: the variant Error.TextureCreationFailed does not
forward an error type of either underlying library; it is a wrapper-defined
error condition (as is Error.RequestingAdapterFailed). -/
theorem textureCreationFailed_is_wrapper_defined :
    Error.forwardsLibraryError .TextureCreationFailed = false ∧
    Error.forwardsLibraryError .RequestingAdapterFailed = false := ⟨rfl, rfl⟩

/-- C3, amended: the Error enum is flat, but only two of its four variants
(RequestingDeviceFailed and ImageError) transparently forward an underlying
library's error type; RequestingAdapterFailed and TextureCreationFailed are
wrapper-defined payload-free variants. -/
theorem error_forwarding_characterization (e : Error) :
    e.forwardsLibraryError = true ↔
      (∃ d, e = .RequestingDeviceFailed d) ∨ (∃ i, e = .ImageError i) := by
  cases e <;> simp [Error.forwardsLibraryError]

/-- C4: Context::new fails with RequestingAdapterFailed exactly when the
adapter request yields none; forwards a device-request error as
RequestingDeviceFailed; and otherwise wraps exactly the instance passed in
together with the adapter, device and queue obtained from the library. -/
theorem context_new_spec
    (request_adapter : RequestAdapterOptions → Option Adapter)
    (request_device : Adapter → DeviceDescriptor → Option String →
      Except RequestDeviceError (Device × Queue))
    (inst : Instance) (descriptor : ContextDescriptor) :
    (Context.new request_adapter request_device inst descriptor =
        .error .RequestingAdapterFailed ↔
      request_adapter descriptor.request_adapter_options = none) ∧
    (∀ adapter e,
      request_adapter descriptor.request_adapter_options = some adapter →
      request_device adapter descriptor.device_descriptor
        descriptor.trace_path = .error e →
      Context.new request_adapter request_device inst descriptor =
        .error (.RequestingDeviceFailed e)) ∧
    (∀ adapter device queue,
      request_adapter descriptor.request_adapter_options = some adapter →
      request_device adapter descriptor.device_descriptor
        descriptor.trace_path = .ok (device, queue) →
      Context.new request_adapter request_device inst descriptor =
        .ok ⟨inst, adapter, device, queue⟩) := by
  refine ⟨?_, ?_, ?_⟩
  · unfold Context.new
    cases h : request_adapter descriptor.request_adapter_options with
    | none => simp
    | some a =>
      cases hd : request_device a descriptor.device_descriptor
          descriptor.trace_path with
      | error e => simp [hd]
      | ok p => cases p with | mk d q => simp [hd]
  · intro adapter e ha hd
    simp [Context.new, ha, hd]
  · intro adapter device queue ha hd
    simp [Context.new, ha, hd]

/-- C4, witness: with a library that yields adapter 1 and then device 2 and
queue 3, Context::new wraps instance 0 with exactly those handles. -/
theorem context_new_spec_witness :
    Context.new (fun _ => some ⟨1⟩) (fun _ _ _ => .ok (⟨2⟩, ⟨3⟩))
      ⟨0⟩ ⟨⟨0⟩, ⟨0⟩, none⟩ = .ok ⟨⟨0⟩, ⟨1⟩, ⟨2⟩, ⟨3⟩⟩ :=
  (context_new_spec (fun _ => some ⟨1⟩) (fun _ _ _ => .ok (⟨2⟩, ⟨3⟩))
      ⟨0⟩ ⟨⟨0⟩, ⟨0⟩, none⟩).2.2 ⟨1⟩ ⟨2⟩ ⟨3⟩ rfl rfl

/-- Pass-through shape of texture_from_image, as a shared helper. -/
lemma tfi_eq (self : Context) (image : DynamicImage)
    (texture_format : TextureFormat) (label : Option String) :
    self.texture_from_image image texture_format label =
      self.texture_with_data image.to_rgba8 image.width image.height
        texture_format label := rfl

/-- C5: texture_from_image returns exactly the result of texture_with_data
applied to the image's RGBA8 byte conversion, the image's width and the
image's height, with the same format and label. -/
theorem texture_from_image_is_pass_through (self : Context)
    (image : DynamicImage) (texture_format : TextureFormat)
    (label : Option String) :
    self.texture_from_image image texture_format label =
      self.texture_with_data image.to_rgba8 image.width image.height
        texture_format label := rfl

/-- C6: texture_from_image_data forwards the decoder's error as
Error.ImageError exactly when decoding fails (performing no library call in
that case), and on successful decoding returns exactly the result of
texture_from_image on the decoded image with the same format and label. -/
theorem texture_from_image_data_spec (self : Context)
    (load_from_memory : List UInt8 → Except ImageError DynamicImage)
    (data : List UInt8) (texture_format : TextureFormat)
    (label : Option String) :
    ((∃ e, (self.texture_from_image_data load_from_memory data texture_format
        label).fst = .error (.ImageError e)) ↔
      (∃ e, load_from_memory data = .error e)) ∧
    (∀ e, load_from_memory data = .error e →
      self.texture_from_image_data load_from_memory data texture_format label
        = (.error (.ImageError e), [])) ∧
    (∀ image, load_from_memory data = .ok image →
      self.texture_from_image_data load_from_memory data texture_format label
        = self.texture_from_image image texture_format label) := by
  refine ⟨⟨?_, ?_⟩, ?_, ?_⟩
  · rintro ⟨e, he⟩
    cases hl : load_from_memory data with
    | error e2 => exact ⟨e2, rfl⟩
    | ok img =>
      exfalso
      have hpass : self.texture_from_image_data load_from_memory data
          texture_format label = self.texture_from_image img texture_format
          label := by
        simp [Context.texture_from_image_data, hl]
      rw [hpass, tfi_eq] at he
      have h2 := twd_error_eq self img.to_rgba8 img.width img.height
        texture_format label (.ImageError e) he
      simp at h2
  · rintro ⟨e, he⟩
    exact ⟨e, by simp [Context.texture_from_image_data, he]⟩
  · intro e he
    simp [Context.texture_from_image_data, he]
  · intro image hl
    simp [Context.texture_from_image_data, hl]

/-- C6, witness: a decoder failing with error 7 on empty input makes
texture_from_image_data return Err(ImageError 7) and perform no library
call. -/
theorem texture_from_image_data_spec_witness :
    ctx0.texture_from_image_data (fun _ => .error ⟨7⟩) [] .Rgba8Unorm none =
      (.error (.ImageError ⟨7⟩), []) :=
  (texture_from_image_data_spec ctx0 (fun _ => .error ⟨7⟩) [] .Rgba8Unorm
    none).2.1 ⟨7⟩ rfl

/-- C7: texture_from_color never errors: for every color, format and label
it returns Ok with a texture whose extent is 1 by 1 with one layer, built
from exactly 4 bytes of data. -/
theorem texture_from_color_spec (self : Context) (color : SVector4)
    (texture_format : TextureFormat) (label : Option String) :
    (∃ t, (self.texture_from_color color texture_format label).fst = .ok t) ∧
    textureExtentOf (self.texture_from_color color texture_format label).snd
      = some ⟨1, 1, 1⟩ ∧
    (writtenBytesOf
        (self.texture_from_color color texture_format label).snd).map
      List.length = some 4 :=
  ⟨⟨_, rfl⟩, rfl, rfl⟩

/-- C8, counterexample: the color supplied to texture_from_color is not
forwarded unchanged — the method recomputes a 4-byte array from it, and two
distinct colors (x component 300 versus 400; the saturating cast sends both
to byte 255) produce identical downstream results, so no forwarding of the
caller's value takes place. -/
theorem texture_from_color_loses_color_information :
    ctx0.texture_from_color ⟨300, 0, 0, 0⟩ .Rgba8Unorm none =
      ctx0.texture_from_color ⟨400, 0, 0, 0⟩ .Rgba8Unorm none ∧
    (⟨300, 0, 0, 0⟩ : SVector4) ≠ ⟨400, 0, 0, 0⟩ := by
  constructor
  · have hb : colorBytes ⟨300, 0, 0, 0⟩ = colorBytes ⟨400, 0, 0, 0⟩ := by
      norm_num [colorBytes, rustCastF32ToU8]
    show ctx0.texture_with_data (colorBytes ⟨300, 0, 0, 0⟩) 1 1
        .Rgba8Unorm none =
      ctx0.texture_with_data (colorBytes ⟨400, 0, 0, 0⟩) 1 1 .Rgba8Unorm none
    rw [hb]
  · intro h
    have hx : (300 : ℚ) = 400 := congrArg SVector4.x h
    norm_num at hx

/-- C8, amended: texture_with_data forwards its data, width, height, format
and label unchanged into the library calls (the uploaded bytes are the
caller's data, and the texture descriptor carries the caller's size, format
and label); texture_from_color, by contrast, does not forward its color — it
recomputes a 4-byte RGBA value (each component scaled by 255 and cast to u8)
and passes that on instead. -/
theorem arguments_forwarded_except_color
    (self : Context) (data : List UInt8) (width height : Nat)
    (texture_format : TextureFormat) (label : Option String)
    (color : SVector4)
    (h : ¬(4 * width % U32MOD = 0 ∨
      data.length < 4 * width % U32MOD * width % U32MOD)) :
    writtenBytesOf (self.texture_with_data data width height texture_format
      label).snd = some data ∧
    textureDescriptorOf (self.texture_with_data data width height
      texture_format label).snd =
      some (twdDescriptor width height texture_format label) ∧
    self.texture_from_color color texture_format label =
      self.texture_with_data (colorBytes color) 1 1 texture_format label := by
  rw [twd_eq_of_not_cond self data width height texture_format label h]
  exact ⟨rfl, rfl, rfl⟩

/-- C8, witness for the amended theorem: 4 bytes of value 9 on a 1-by-1
texture are uploaded verbatim with the caller's format and label, and
texture_from_color at the zero color routes through texture_with_data on its
recomputed bytes. -/
theorem arguments_forwarded_except_color_witness :
    writtenBytesOf (ctx0.texture_with_data [9, 9, 9, 9] 1 1 .Rgba8Unorm
      none).snd = some [9, 9, 9, 9] ∧
    textureDescriptorOf (ctx0.texture_with_data [9, 9, 9, 9] 1 1 .Rgba8Unorm
      none).snd = some (twdDescriptor 1 1 .Rgba8Unorm none) ∧
    ctx0.texture_from_color ⟨0, 0, 0, 0⟩ .Rgba8Unorm none =
      ctx0.texture_with_data (colorBytes ⟨0, 0, 0, 0⟩) 1 1 .Rgba8Unorm
        none :=
  arguments_forwarded_except_color ctx0 [9, 9, 9, 9] 1 1 .Rgba8Unorm none
    ⟨0, 0, 0, 0⟩ (by decide)

/-- C9: whenever texture_with_data returns an error, it has performed no
library call at all — no texture is created on the device and nothing is
written to the queue. -/
theorem texture_with_data_error_is_atomic (self : Context)
    (data : List UInt8) (width height : Nat)
    (texture_format : TextureFormat) (label : Option String) (e : Error)
    (h : (self.texture_with_data data width height texture_format label).fst
      = .error e) :
    (self.texture_with_data data width height texture_format label).snd
      = [] := by
  by_cases hc : (4 * width % U32MOD = 0 ∨
      data.length < 4 * width % U32MOD * width % U32MOD)
  · rw [twd_eq_of_cond self data width height texture_format label hc]
  · rw [twd_eq_of_not_cond self data width height texture_format label hc]
      at h
    exact absurd h (by simp)

/-- C9, witness: empty data on a 1-by-1 texture errors, and the call trace
is empty. -/
theorem texture_with_data_error_is_atomic_witness :
    (ctx0.texture_with_data [] 1 1 .Rgba8Unorm none).snd = [] :=
  texture_with_data_error_is_atomic ctx0 [] 1 1 .Rgba8Unorm none
    .TextureCreationFailed rfl

/-- C10: on every successful call, the upload layout passed to the queue
uses bytes_per_row equal to the u32 product 4 * width and rows_per_image
equal to height, for every texture format (the right-hand side does not
depend on the format, so the layout assumes 4 bytes per pixel regardless of
the supplied format). -/
theorem upload_layout_assumes_4_bytes_per_pixel (self : Context)
    (data : List UInt8) (width height : Nat)
    (texture_format : TextureFormat) (label : Option String)
    (h : exceptIsOk (self.texture_with_data data width height texture_format
      label).fst = true) :
    writeLayoutOf (self.texture_with_data data width height texture_format
      label).snd = some ⟨0, some (4 * width % U32MOD), some height⟩ := by
  by_cases hc : (4 * width % U32MOD = 0 ∨
      data.length < 4 * width % U32MOD * width % U32MOD)
  · rw [twd_eq_of_cond self data width height texture_format label hc] at h
    exact absurd h (by simp [exceptIsOk])
  · rw [twd_eq_of_not_cond self data width height texture_format label hc]
    rfl

/-- C10, witness: a successful 1-by-1 upload of 4 bytes uses bytes_per_row
4 and rows_per_image 1. -/
theorem upload_layout_assumes_4_bytes_per_pixel_witness :
    writeLayoutOf (ctx0.texture_with_data [9, 9, 9, 9] 1 1 .Rgba8Unorm
      none).snd = some ⟨0, some (4 * 1 % U32MOD), some 1⟩ :=
  upload_layout_assumes_4_bytes_per_pixel ctx0 [9, 9, 9, 9] 1 1 .Rgba8Unorm
    none rfl
